import Mathlib

/-!
Verification of the Court-Listener citation core against its specification.

This file shallowly embeds the two algorithmic subsystems of the repository:

* the treatment classifier
  (`backend/app/services/treatment_classifier.py`): keyword scoring with
  negation patterns and context-intensity modifiers;
* the recursive citation risk engine
  (`backend/app/services/recursive_citation_analyzer.py`,
  `backend/app/services/citation_quality_analyzer.py`,
  `backend/app/models/citation_quality.py`,
  `backend/app/api/v1/citation_quality.py`): breadth-first traversal with a
  per-node verdict cache, tree persistence and risk aggregation.

Modelling conventions:

* Python floats are modelled as exact rationals (`ℚ`); `int(x)` is integer
  truncation (all truncated values in scope are nonnegative, so floor and
  truncation agree); `round(x, 2)` is round-half-to-even at two decimals.
* Python `set`s of opinion ids are modelled as insertion-ordered duplicate-free
  lists; CPython's iteration order for the small-integer sets appearing in the
  concrete inputs below coincides with insertion order.
* The database session is explicit state: the verdict cache is a list of rows
  of `citation_quality_analysis` and the tree store a list of rows of
  `citation_analysis_tree` (most recent first, mirroring the
  `order_by(analysis_started_at.desc())` access pattern).  Wall-clock fields
  (timestamps, `execution_time_seconds`) and autoincrement primary keys are
  not modelled.
* The graph store, opinion fetcher and quality oracle are opaque environment
  functions, mirroring `get_opinion_citations`, `ensure_opinion_exists` and
  `CitationQualityAnalyzer.analyze_citation_quality`.
-/

namespace CourtListener

/-- Severity enum from `app/models/citation_treatment.py`. -/
inductive Severity where
  | NEGATIVE
  | POSITIVE
  | NEUTRAL
  | UNKNOWN
deriving DecidableEq, Repr

/-- Treatment type enum from `app/models/citation_treatment.py`
(the constructors reachable from the classifier). -/
inductive TreatmentType where
  | OVERRULED
  | REVERSED
  | VACATED
  | ABROGATED
  | SUPERSEDED
  | QUESTIONED
  | CRITICIZED
  | AFFIRMED
  | FOLLOWED
  | DISTINGUISHED
  | CITED
  | UNKNOWN
deriving DecidableEq, Repr

/-- Python `\s` for the ASCII range: space, tab, newline, carriage return,
vertical tab, form feed. -/
def pyIsSpace (c : Char) : Bool :=
  c = ' ' || c = '\t' || c = '\n' || c = '\r' || c = '\x0b' || c = '\x0c'

/-- Regex word character `\w` in the ASCII range: `[a-zA-Z0-9_]`. -/
def isWordChar (c : Char) : Bool :=
  ('a'.toNat ≤ c.toNat && c.toNat ≤ 'z'.toNat) ||
  ('A'.toNat ≤ c.toNat && c.toNat ≤ 'Z'.toNat) ||
  ('0'.toNat ≤ c.toNat && c.toNat ≤ '9'.toNat) ||
  c = '_'

/-- `normalize_text`: lowercase and strip surrounding whitespace.  The result
is kept as a character list so that match positions are explicit. -/
def normalize_text (s : String) : List Char :=
  let l := s.toList.map Char.toLower
  ((l.dropWhile pyIsSpace).reverse.dropWhile pyIsSpace).reverse

/-- Python `int(q)` for the nonnegative rationals produced by score
adjustment (truncation towards zero, which on nonnegatives is the floor). -/
def pyInt (q : ℚ) : ℤ :=
  Int.tdiv q.num (q.den : ℤ)

/-- The literal `lit` occurs in `s` starting at index `i`. -/
def matchLitAt (lit : List Char) (s : List Char) (i : Nat) : Bool :=
  decide (lit = (s.drop i).take lit.length)

/-- Length of the maximal whitespace run starting at index `i`. -/
def wsRunLen (s : List Char) (i : Nat) : Nat :=
  ((s.drop i).takeWhile pyIsSpace).length

/-- Continue a `w1\s+w2\s+...` match: each remaining word is preceded by at
least one whitespace character.  Because every pattern word starts with a
letter, the greedy whitespace run of `\s+` is exactly what the regex engine
commits to. -/
def matchWordsTail (s : List Char) : List (List Char) → Nat → Option Nat
  | [], i => some i
  | w :: ws, i =>
      let k := wsRunLen s i
      if k = 0 then none
      else if matchLitAt w s (i + k) then matchWordsTail s ws (i + k + w.length)
      else none

/-- Match a negation pattern of the shape `w1\s+w2(\s+w3)` at index `i`,
returning the end index of the match. -/
def matchWordsAt (words : List (List Char)) (s : List Char) (i : Nat) : Option Nat :=
  match words with
  | [] => none
  | w :: rest =>
      if matchLitAt w s i then matchWordsTail s rest (i + w.length) else none

/-- Regex `.` matches every character except a newline. -/
def nonNl (c : Char) : Bool := c ≠ '\n'

/-- The slice `s[a..b)` decomposes as `\s+ · .*? · \s+` (both whitespace runs
nonempty, middle free of newlines). -/
def lazyGapOk (s : List Char) (a b : Nat) : Bool :=
  (List.range (b + 1)).any fun p =>
    (List.range (b + 1)).any fun q =>
      a < p && p ≤ q && q < b &&
      ((s.drop a).take (p - a)).all pyIsSpace &&
      ((s.drop q).take (b - q)).all pyIsSpace &&
      ((s.drop p).take (q - p)).all nonNl

/-- Match `distinguished\s+.*?\s+declined` at index `i`: the lazy `.*?` makes
the regex engine settle on the earliest possible `declined`. -/
def matchDistLazyAt (s : List Char) (i : Nat) : Option Nat :=
  if matchLitAt ("distinguished".toList) s i then
    match (List.range (s.length + 1)).find? (fun d =>
        matchLitAt ("declined".toList) s d && lazyGapOk s (i + 13) d) with
    | some d => some (d + 8)
    | none => none
  else none

/-- Shapes of the `NEGATION_PATTERNS` regexes: either literal words joined by
`\s+`, or the one lazy pattern `distinguished\s+.*?\s+declined`. -/
inductive NegPat where
  | words (ws : List String)
  | distLazy
deriving DecidableEq, Repr

/-- `NEGATION_PATTERNS` from `treatment_classifier.py` (the middle component
`keyword_to_negate` of each source tuple is never read by
`find_treatment_signals` and is omitted). -/
def NEGATION_PATTERNS : List (NegPat × ℤ) := [
  (.words ["declined", "to", "follow"], 8),
  (.words ["refused", "to", "follow"], 8),
  (.words ["declined", "to", "adopt"], 8),
  (.words ["refused", "to", "adopt"], 8),
  (.words ["declined", "to", "apply"], 7),
  (.words ["refused", "to", "apply"], 7),
  (.words ["not", "followed"], 6),
  (.words ["no", "longer", "followed"], 9),
  (.words ["expressly", "rejected"], 9),
  (.words ["declined", "to", "extend"], 5),
  (.words ["refused", "to", "extend"], 5),
  (.words ["distinguished", "and", "rejected"], 7),
  (.distLazy, 6)]

/-- Dispatch a negation pattern matcher. -/
def matchPatAt (p : NegPat) (s : List Char) (i : Nat) : Option Nat :=
  match p with
  | .words ws => matchWordsAt (ws.map String.toList) s i
  | .distLazy => matchDistLazyAt s i

/-- `re.finditer`: scan left to right collecting non-overlapping matches,
resuming after the end of each match. -/
def finditerAux (matchAt : Nat → Option Nat) : Nat → Nat → List (Nat × Nat)
  | 0, _ => []
  | fuel + 1, i =>
      match matchAt i with
      | some e => (i, e) :: finditerAux matchAt fuel (max e (i + 1))
      | none => finditerAux matchAt fuel (i + 1)

/-- All matches of `matchAt` over a text of length `len`. -/
def finditer (matchAt : Nat → Option Nat) (len : Nat) : List (Nat × Nat) :=
  finditerAux matchAt (len + 1) 0

/-- `CONTEXT_MODIFIERS` from `treatment_classifier.py`: intensifiers above 1,
weakeners below 1, in source dictionary order. -/
def CONTEXT_MODIFIERS : List (String × ℚ) := [
  ("expressly", 13/10),
  ("explicitly", 13/10),
  ("clearly", 12/10),
  ("unequivocally", 14/10),
  ("categorically", 14/10),
  ("firmly", 12/10),
  ("strongly", 12/10),
  ("completely", 13/10),
  ("implicitly", 8/10),
  ("arguably", 7/10),
  ("possibly", 6/10),
  ("potentially", 7/10),
  ("might", 6/10),
  ("could", 7/10),
  ("seems", 7/10),
  ("appears", 8/10)]

/-- Python `needle in hay` on strings: substring occurrence. -/
def isSubstr (needle hay : List Char) : Bool :=
  (List.range (hay.length + 1)).any (fun i => matchLitAt needle hay i)

/-- `CONTEXT_WINDOW` from `treatment_classifier.py`. -/
def CONTEXT_WINDOW : Nat := 50

/-- `get_context_modifier`: fold the modifier table over the 50-character
window around `pos`, taking the largest intensifier / smallest weakener seen
so far exactly as the source loop does. -/
def get_context_modifier (s : List Char) (pos : Nat) : ℚ :=
  let start := pos - CONTEXT_WINDOW
  let stop := min s.length (pos + CONTEXT_WINDOW)
  let ctx := (s.drop start).take (stop - start)
  CONTEXT_MODIFIERS.foldl
    (fun m wm =>
      if isSubstr wm.1.toList ctx then
        (if wm.2 > 1 then max m wm.2 else min m wm.2)
      else m)
    1

/-- `NEGATIVE_KEYWORDS` from `treatment_classifier.py`. -/
def NEGATIVE_KEYWORDS : List (String × ℤ) := [
  ("overruled", 10), ("overruling", 10), ("overrule", 10),
  ("abrogated", 10), ("abrogating", 10),
  ("reversed", 9), ("reversing", 9), ("vacated", 9), ("vacating", 9),
  ("superseded", 9),
  ("disapproved", 8), ("disapproving", 8),
  ("rejected", 7), ("rejecting", 7),
  ("questioned", 6), ("questioning", 6), ("doubted", 6),
  ("criticized", 5), ("criticizing", 5),
  ("limited", 4), ("limiting", 4), ("narrowed", 4), ("narrowing", 4)]

/-- `POSITIVE_KEYWORDS` from `treatment_classifier.py`. -/
def POSITIVE_KEYWORDS : List (String × ℤ) := [
  ("affirmed", 8), ("affirming", 8),
  ("followed", 7), ("following", 7), ("adopted", 7), ("adopting", 7),
  ("approved", 6), ("approving", 6),
  ("applied", 5), ("applying", 5),
  ("cited with approval", 8),
  ("endorsed", 6), ("endorsing", 6),
  ("agreed", 5), ("agreeing", 5)]

/-- `NEUTRAL_KEYWORDS` from `treatment_classifier.py`. -/
def NEUTRAL_KEYWORDS : List (String × ℤ) := [
  ("distinguished", 5), ("distinguishing", 5),
  ("explained", 3), ("explaining", 3),
  ("discussed", 2), ("discussing", 2),
  ("cited", 1), ("citing", 1),
  ("mentioned", 1), ("mentioning", 1),
  ("referenced", 1), ("referencing", 1)]

/-- Index `i` of `s` holds a word character. -/
def wordCharAt (s : List Char) (i : Nat) : Bool :=
  match s[i]? with
  | some c => isWordChar c
  | none => false

/-- Match of `\b kw \b` at index `i`.  Every keyword starts and ends with a
letter, so the boundaries reduce to the neighbouring characters being
non-word (or the ends of the text). -/
def wordBoundedAt (kw : List Char) (s : List Char) (i : Nat) : Bool :=
  matchLitAt kw s i &&
  (i == 0 || !wordCharAt s (i - 1)) &&
  !wordCharAt s (i + kw.length)

/-- All start positions of `\b kw \b` in `s`, ascending.  Word-bounded
matches of one keyword cannot overlap, so this is the `re.finditer` match
set. -/
def keywordMatches (kw : List Char) (s : List Char) : List Nat :=
  (List.range (s.length + 1)).filter (fun i => wordBoundedAt kw s i)

/-- A detected treatment signal (`TreatmentSignal` dataclass). -/
structure TreatmentSignal where
  keyword : List Char
  score : ℤ
  severity : Severity
  position : Nat
deriving DecidableEq, Repr

/-- The keyword-scanning phase of `find_treatment_signals` for one keyword
table: every match whose start position lies in a claimed negation span is
suppressed; surviving matches get the context-modified score. -/
def keywordSignalsFor (tbl : List (String × ℤ)) (sev : Severity)
    (s : List Char) (np : List Nat) : List TreatmentSignal :=
  tbl.flatMap (fun kv =>
    (keywordMatches kv.1.toList s).filterMap (fun i =>
      if i ∈ np then none
      else some ⟨kv.1.toList, pyInt ((kv.2 : ℚ) * get_context_modifier s i), sev, i⟩))

/-- All negation-pattern matches with their configured scores, in source
pattern order. -/
def negationMatches (s : List Char) : List ((Nat × Nat) × ℤ) :=
  NEGATION_PATTERNS.flatMap (fun pp =>
    (finditer (matchPatAt pp.1 s) s.length).map (fun m => (m, pp.2)))

/-- The character positions claimed by negation matches (`negated_positions`
in the source). -/
def negatedPositions (s : List Char) : List Nat :=
  (negationMatches s).flatMap (fun m => List.range' m.1.1 (m.1.2 - m.1.1))

/-- The negation phase of `find_treatment_signals`: each match contributes a
NEGATIVE signal carrying the full matched phrase. -/
def negationSignals (s : List Char) : List TreatmentSignal :=
  (negationMatches s).map (fun m =>
    ⟨(s.drop m.1.1).take (m.1.2 - m.1.1),
     pyInt ((m.2 : ℚ) * get_context_modifier s m.1.1),
     Severity.NEGATIVE, m.1.1⟩)

/-- `find_treatment_signals`: negation signals first, then the three keyword
tables with matches inside claimed spans suppressed. -/
def find_treatment_signals (text : String) : List TreatmentSignal :=
  let s := normalize_text text
  let np := negatedPositions s
  negationSignals s
    ++ keywordSignalsFor NEGATIVE_KEYWORDS .NEGATIVE s np
    ++ keywordSignalsFor POSITIVE_KEYWORDS .POSITIVE s np
    ++ keywordSignalsFor NEUTRAL_KEYWORDS .NEUTRAL s np

/-- Total score of the signals of one severity bucket. -/
def sevScore (sigs : List TreatmentSignal) (sev : Severity) : ℤ :=
  ((sigs.filter (fun x => x.severity == sev)).map (·.score)).sum

/-- Python `max(signals, key=lambda s: s.score)`: the first signal attaining
the maximal score. -/
def maxByScore : List TreatmentSignal → Option TreatmentSignal
  | [] => none
  | x :: xs => some (xs.foldl (fun b s => if s.score > b.score then s else b) x)

/-- `_map_keyword_to_treatment_type`: substring dispatch in source order. -/
def map_keyword_to_treatment_type (kw : List Char) (sev : Severity) : TreatmentType :=
  if isSubstr "overrul".toList kw then .OVERRULED
  else if isSubstr "revers".toList kw then .REVERSED
  else if isSubstr "vacat".toList kw then .VACATED
  else if isSubstr "abrogat".toList kw then .ABROGATED
  else if isSubstr "supersed".toList kw then .SUPERSEDED
  else if isSubstr "question".toList kw || isSubstr "doubt".toList kw then .QUESTIONED
  else if isSubstr "criticiz".toList kw || isSubstr "disapprov".toList kw
       || isSubstr "reject".toList kw then .CRITICIZED
  else if isSubstr "affirm".toList kw then .AFFIRMED
  else if isSubstr "follow".toList kw || isSubstr "adopt".toList kw
       || isSubstr "approv".toList kw || isSubstr "endors".toList kw then .FOLLOWED
  else if isSubstr "distinguish".toList kw then .DISTINGUISHED
  else if sev == .NEGATIVE then .CRITICIZED
  else if sev == .POSITIVE then .FOLLOWED
  else .CITED

/-- Result of `classify_parenthetical` (`TreatmentResult` dataclass). -/
structure TreatmentResult where
  treatment_type : TreatmentType
  severity : Severity
  confidence : ℚ
  signals : List TreatmentSignal
  text : String
deriving DecidableEq, Repr

/-- `classify_parenthetical`: bucket totals, severity selection (NEGATIVE and
POSITIVE only on strict dominance, NEUTRAL otherwise), treatment type from the
single strongest signal, and the confidence formula. -/
def classify_parenthetical (text : String) : TreatmentResult :=
  let signals := find_treatment_signals text
  match signals with
  | [] => ⟨.CITED, .NEUTRAL, 3/10, [], text⟩
  | s0 :: rest =>
      let negative_score := sevScore signals .NEGATIVE
      let positive_score := sevScore signals .POSITIVE
      let neutral_score := sevScore signals .NEUTRAL
      let sevMax : Severity × ℤ :=
        if negative_score > positive_score ∧ negative_score > neutral_score then
          (Severity.NEGATIVE, negative_score)
        else if positive_score > negative_score ∧ positive_score > neutral_score then
          (Severity.POSITIVE, positive_score)
        else (Severity.NEUTRAL, neutral_score)
      let strongest := rest.foldl (fun b s => if s.score > b.score then s else b) s0
      let ttype := map_keyword_to_treatment_type strongest.keyword sevMax.1
      let cnt := (signals.filter (fun x => x.severity == sevMax.1)).length
      let confidence := min 1 ((sevMax.2 : ℚ) / 10 * (1 + (cnt : ℚ) * (1/10)))
      ⟨ttype, sevMax.1, confidence, signals, text⟩

/-! ### Node assessment cache
(`citation_quality_analyzer.py` and the `citation_quality_analysis` table) -/

/-- The analysis dict returned by
`CitationQualityAnalyzer.analyze_citation_quality`. -/
structure Analysis where
  quality_assessment : String
  confidence : ℚ
  is_overruled : Bool
  is_questioned : Bool
  is_criticized : Bool
  risk_score : ℚ
  summary : String
deriving DecidableEq, Repr

/-- A row of the `citation_quality_analysis` table (wall-clock columns and the
autoincrement primary key are not modelled). -/
structure CacheRow where
  cited_opinion_id : Nat
  quality_assessment : String
  confidence : ℚ
  is_overruled : Bool
  is_questioned : Bool
  is_criticized : Bool
  risk_score : ℚ
  ai_summary : String
  ai_model : String
  analysis_version : Nat
deriving DecidableEq, Repr

/-- `HAIKU_MODEL` constant from `citation_quality_analyzer.py`. -/
def HAIKU_MODEL : String := "claude-haiku-4-5-20251001"

/-- `get_cached_analysis`: first row for the opinion at the current analysis
version (the table's unique constraint on `(cited_opinion_id,
analysis_version)` makes it the only such row). -/
def get_cached_analysis (cache : List CacheRow) (opinion_id : Nat) : Option CacheRow :=
  cache.find? (fun r => r.cited_opinion_id == opinion_id && r.analysis_version == 1)

/-- The row written by `save_analysis` for a fresh analysis. -/
def rowOfAnalysis (opinion_id : Nat) (a : Analysis) : CacheRow :=
  ⟨opinion_id, a.quality_assessment, a.confidence, a.is_overruled, a.is_questioned,
   a.is_criticized, a.risk_score, a.summary, HAIKU_MODEL, 1⟩

/-- `save_analysis`: if a row for the key already exists, overwrite its fields
in place; otherwise insert a new row. -/
def save_analysis : List CacheRow → Nat → Analysis → List CacheRow
  | [], opinion_id, a => [rowOfAnalysis opinion_id a]
  | r :: rs, opinion_id, a =>
      if r.cited_opinion_id == opinion_id && r.analysis_version == 1 then
        rowOfAnalysis r.cited_opinion_id a :: rs
      else
        r :: save_analysis rs opinion_id a

/-! ### Environment: graph store, opinion fetcher, quality oracle -/

/-- External collaborators of the traversal, as opaque functions:
`citations` is `get_opinion_citations` (ordered cited ids), `inDb` the direct
opinion lookup used by the API route, `opinionExists` success of
`ensure_opinion_exists` (database or remote fetch), `oracle` the result of a
quality-oracle call, and `available` is `CitationQualityAnalyzer.is_available`
(the API key is configured). -/
structure Env where
  citations : Nat → List Nat
  inDb : Nat → Bool
  opinionExists : Nat → Bool
  oracle : Nat → Option Analysis
  available : Bool

/-- `analyze_citation_quality`: `None` when the analyzer is unavailable,
otherwise the oracle's (possibly failed) result. -/
def analyze_citation_quality (env : Env) (opinion_id : Nat) : Option Analysis :=
  if env.available then env.oracle opinion_id else none

/-! ### Tree traversal engine (`recursive_citation_analyzer.py`) -/

/-- `MAX_CITATIONS_PER_LEVEL` configuration constant. -/
def MAX_CITATIONS_PER_LEVEL : Nat := 100

/-- `HIGH_RISK_THRESHOLD` configuration constant. -/
def HIGH_RISK_THRESHOLD : ℚ := 60

/-- `RE_EVALUATION_THRESHOLD` configuration constant. -/
def RE_EVALUATION_THRESHOLD : ℚ := 70

/-- One `citation_data` dict of `_analyze_level`.  The constant `children`
key (always `[]`) is omitted; `has_high_risk_children` is `none` while the
key is absent and `some b` once `_re_evaluate_parents` writes it. -/
structure CitationData where
  opinion_id : Nat
  depth : Nat
  quality_assessment : String
  confidence : ℚ
  risk_score : ℚ
  is_overruled : Bool
  is_questioned : Bool
  is_criticized : Bool
  summary : String
  from_cache : Bool
  has_high_risk_children : Option Bool
deriving DecidableEq, Repr

/-- The per-cited-id body of `_analyze_level` (after the visited check):
skip a missing opinion; serve from cache when possible; otherwise, if the
analyzer is available, invoke it and persist a successful result before
using it.  Returns the citation data (if the node was assessed), the updated
cache, and the ids for which `analyze_citation_quality` was invoked. -/
def assess_cited (env : Env) (cache : List CacheRow) (cited_id depth : Nat) :
    Option CitationData × List CacheRow × List Nat :=
  if !env.opinionExists cited_id then (none, cache, [])
  else
    match get_cached_analysis cache cited_id with
    | some r =>
        (some ⟨cited_id, depth, r.quality_assessment, r.confidence, r.risk_score,
               r.is_overruled, r.is_questioned, r.is_criticized, r.ai_summary,
               true, none⟩,
         cache, [])
    | none =>
        if !env.available then (none, cache, [])
        else
          match analyze_citation_quality env cited_id with
          | none => (none, cache, [cited_id])
          | some a =>
              (some ⟨cited_id, depth, a.quality_assessment, a.confidence, a.risk_score,
                     a.is_overruled, a.is_questioned, a.is_criticized, a.summary,
                     false, none⟩,
               save_analysis cache cited_id a, [cited_id])

/-- Result of `_analyze_level`, together with the threaded cache state and
oracle invocations. -/
structure LevelResult where
  citations : List CitationData
  next_ids : List Nat
  cache : List CacheRow
  calls : List Nat
deriving DecidableEq, Repr

/-- `set.add`: append if absent (the frontier set, in insertion order). -/
def insertNew (l : List Nat) (x : Nat) : List Nat :=
  if x ∈ l then l else l ++ [x]

/-- The inner loop body of `_analyze_level`: handle one cited id (skip if
already visited, otherwise assess and record). -/
def process_cited (env : Env) (depth : Nat) (visited : List Nat)
    (acc : LevelResult) (cited_id : Nat) : LevelResult :=
  if cited_id ∈ visited then acc
  else
    match assess_cited env acc.cache cited_id depth with
    | (none, cache', calls') =>
        { acc with cache := cache', calls := acc.calls ++ calls' }
    | (some cd, cache', calls') =>
        { citations := acc.citations ++ [cd],
          next_ids := insertNew acc.next_ids cited_id,
          cache := cache',
          calls := acc.calls ++ calls' }

/-- The outer loop body of `_analyze_level`: expand one node of the current
level through the graph store. -/
def process_parent (env : Env) (depth : Nat) (visited : List Nat)
    (acc : LevelResult) (opinion_id : Nat) : LevelResult :=
  (env.citations opinion_id).foldl (process_cited env depth visited) acc

/-- `_analyze_level`: for every node of the current level, fetch its cited
ids from the graph store and assess every not-yet-visited one.  The visited
set is only read here — it is updated by the caller after the level — so an
id cited by two parents of the same level is assessed once per parent. -/
def analyze_level (env : Env) (current_level_ids : List Nat) (depth : Nat)
    (visited : List Nat) (cache : List CacheRow) : LevelResult :=
  current_level_ids.foldl (process_parent env depth visited) ⟨[], [], cache, []⟩

/-! ### Risk aggregation -/

/-- One entry of the `factors` list of `_calculate_overall_risk`, with the
formatted message abstracted to the numbers it interpolates. -/
inductive RiskFactor where
  | overruledSuperseded (count : Nat) (pct : ℚ)
  | questionable (count : Nat) (pct : ℚ)
  | depth1HighRisk (count : Nat)
deriving DecidableEq, Repr

/-- The risk-assessment dict of `_calculate_overall_risk`. -/
structure RiskAssessment where
  score : ℚ
  level : String
  confidence : ℚ
  factors : List RiskFactor
deriving DecidableEq, Repr

/-- Round half to even, as Python's `round` does. -/
def roundHalfEven (q : ℚ) : ℤ :=
  let n := q.floor
  let f := q - (n : ℚ)
  if f < 1/2 then n
  else if (1 : ℚ)/2 < f then n + 1
  else if n % 2 = 0 then n else n + 1

/-- Python `round(q, 2)`. -/
def pyRound2 (q : ℚ) : ℚ :=
  (roundHalfEven (q * 100) : ℚ) / 100

/-- Count of flat-set entries with the given assessment category (the
`defaultdict` tally of the source). -/
def countQA (all_citations : List CitationData) (qa : String) : Nat :=
  (all_citations.filter (fun c => c.quality_assessment == qa)).length

/-- `_calculate_overall_risk`: category percentages, depth-weighted average
risk, combined score capped at 100 and rounded to two decimals, risk level
from the uncapped-at-display value, and the factor list. -/
def calculate_overall_risk (all_citations : List CitationData) : RiskAssessment :=
  match all_citations with
  | [] => ⟨0, "LOW", 1, []⟩
  | _ :: _ =>
      let total : ℚ := (all_citations.length : ℚ)
      let negative_count := countQA all_citations "OVERRULED" + countQA all_citations "SUPERSEDED"
      let questionable_count := countQA all_citations "QUESTIONABLE"
      let negative_pct := ((negative_count : ℚ) / total) * 100
      let questionable_pct := ((questionable_count : ℚ) / total) * 100
      let depth_weighted_risk :=
        (all_citations.map (fun c => (1 / max (c.depth : ℚ) 1) * c.risk_score)).sum / total
      let risk_score :=
        min (negative_pct * (5/10) + questionable_pct * (3/10) + depth_weighted_risk * (2/10)) 100
      let risk_level :=
        if 70 ≤ risk_score then "HIGH" else if 40 ≤ risk_score then "MEDIUM" else "LOW"
      let depth1_issues :=
        (all_citations.filter
          (fun c => c.depth == 1 && decide (HIGH_RISK_THRESHOLD ≤ c.risk_score))).length
      let factors :=
        (if 0 < negative_count then [RiskFactor.overruledSuperseded negative_count negative_pct] else [])
        ++ (if 0 < questionable_count then [RiskFactor.questionable questionable_count questionable_pct] else [])
        ++ (if 0 < depth1_issues then [RiskFactor.depth1HighRisk depth1_issues] else [])
      ⟨pyRound2 risk_score, risk_level, 85/100, factors⟩

/-- `_re_evaluate_parents`: when some depth-(≥3) citation has risk at or
above the re-evaluation threshold, tag every depth-(≤2) citation of this
tree; otherwise return unchanged. -/
def re_evaluate_parents (all_citations : List CitationData) : List CitationData :=
  let high_risk_deep :=
    all_citations.filter
      (fun c => decide (3 ≤ c.depth) && decide (RE_EVALUATION_THRESHOLD ≤ c.risk_score))
  match high_risk_deep with
  | [] => all_citations
  | _ :: _ =>
      all_citations.map
        (fun c => if c.depth ≤ 2 then { c with has_high_risk_children := some true } else c)

/-- One entry of `citations_by_depth` in `_build_tree_structure`. -/
structure TreeEntry where
  opinion_id : Nat
  quality_assessment : String
  risk_score : ℚ
  summary : String
deriving DecidableEq, Repr

/-- The `tree_data` dict of `_build_tree_structure`: depth-indexed citation
lists, depth keys in first-seen order. -/
structure TreeData where
  root_opinion_id : Nat
  citations_by_depth : List (Nat × List TreeEntry)
deriving DecidableEq, Repr

/-- Append an entry to the list of its depth, creating the key on first
use. -/
def addByDepth (m : List (Nat × List TreeEntry)) (d : Nat) (e : TreeEntry) :
    List (Nat × List TreeEntry) :=
  match m with
  | [] => [(d, [e])]
  | (k, es) :: rest =>
      if k == d then (k, es ++ [e]) :: rest else (k, es) :: addByDepth rest d e

/-- `_build_tree_structure`. -/
def build_tree_structure (root_opinion_id : Nat) (all_citations : List CitationData) :
    TreeData :=
  ⟨root_opinion_id,
   all_citations.foldl
     (fun m c => addByDepth m c.depth ⟨c.opinion_id, c.quality_assessment, c.risk_score, c.summary⟩)
     []⟩

/-- One entry of the persisted `high_risk_citations` list. -/
structure HighRiskEntry where
  opinion_id : Nat
  depth : Nat
  quality_assessment : String
  risk_score : ℚ
  summary : String
deriving DecidableEq, Repr

/-- Stable insertion for descending risk order (mirrors Python's stable
`sort(key=..., reverse=True)`). -/
def insertByRiskDesc (x : HighRiskEntry) : List HighRiskEntry → List HighRiskEntry
  | [] => [x]
  | y :: ys => if decide (x.risk_score < y.risk_score) then y :: insertByRiskDesc x ys
               else x :: y :: ys

/-- Stable sort by risk score, descending. -/
def sortByRiskDesc : List HighRiskEntry → List HighRiskEntry
  | [] => []
  | x :: xs => insertByRiskDesc x (sortByRiskDesc xs)

/-- `_extract_high_risk_citations`: entries at or above the high-risk
threshold, sorted by risk descending, top 20. -/
def extract_high_risk_citations (all_citations : List CitationData) : List HighRiskEntry :=
  (sortByRiskDesc
    ((all_citations.filter (fun c => decide (HIGH_RISK_THRESHOLD ≤ c.risk_score))).map
      (fun c => ⟨c.opinion_id, c.depth, c.quality_assessment, c.risk_score, c.summary⟩))).take 20

/-! ### Tree persistence (`citation_analysis_tree` rows) -/

/-- A row of `citation_analysis_tree`.  Wall-clock columns
(`analysis_started_at`, `analysis_completed_at`, `last_updated`,
`execution_time_seconds`) and the autoincrement id are not modelled;
`tree_data` is `none` while the column still holds the initial `{}`. -/
structure TreeRec where
  root_opinion_id : Nat
  max_depth : Nat
  current_depth : Nat
  total_citations_analyzed : Nat
  good_count : Nat
  questionable_count : Nat
  overruled_count : Nat
  superseded_count : Nat
  uncertain_count : Nat
  overall_risk_score : ℚ
  overall_risk_level : Option String
  risk_factors : List RiskFactor
  tree_data : Option TreeData
  high_risk_citations : List HighRiskEntry
  cache_hits : Nat
  cache_misses : Nat
  status : String
  error_message : Option String
deriving DecidableEq, Repr

/-- The filter of `_get_existing_tree`. -/
def tree_filter (root max_depth : Nat) (t : TreeRec) : Bool :=
  t.root_opinion_id == root && t.max_depth == max_depth &&
    (t.status == "in_progress" || t.status == "completed")

/-- `_get_existing_tree`: the most recent live tree for the exact
`(root, max_depth)` pair.  The store list is kept most-recent-first, so the
`order_by(analysis_started_at.desc()).first()` row is the first match. -/
def get_existing_tree (store : List TreeRec) (root max_depth : Nat) : Option TreeRec :=
  store.find? (tree_filter root max_depth)

/-- `CitationAnalysisTree.is_complete`. -/
def treeIsComplete (t : TreeRec) : Bool :=
  t.status == "completed" && t.max_depth ≤ t.current_depth

/-- `CitationAnalysisTree.can_extend_to_depth`. -/
def can_extend_to_depth (t : TreeRec) (new_depth : Nat) : Bool :=
  t.status == "completed" && t.max_depth < new_depth && t.max_depth ≤ t.current_depth

/-- `_create_tree_record`: a fresh `in_progress` row with database column
defaults. -/
def create_tree_record (root max_depth : Nat) : TreeRec :=
  ⟨root, max_depth, 0, 0, 0, 0, 0, 0, 0, 0, none, [], none, [], 0, 0, "in_progress", none⟩

/-- `_update_tree_record`: write aggregate counts, risk assessment, tree
data, performance counters and mark the row completed.  `current_depth`
receives whatever the caller passes (the caller passes `max_depth`). -/
def update_tree_record (t : TreeRec) (current_depth : Nat)
    (all_citations : List CitationData) (risk : RiskAssessment) (td : TreeData)
    (hr : List HighRiskEntry) (hits misses : Nat) : TreeRec :=
  { t with
    current_depth := current_depth,
    total_citations_analyzed := all_citations.length,
    good_count := countQA all_citations "GOOD",
    questionable_count := countQA all_citations "QUESTIONABLE",
    overruled_count := countQA all_citations "OVERRULED",
    superseded_count := countQA all_citations "SUPERSEDED",
    uncertain_count := countQA all_citations "UNCERTAIN",
    overall_risk_score := risk.score,
    overall_risk_level := some risk.level,
    risk_factors := risk.factors,
    tree_data := some td,
    high_risk_citations := hr,
    cache_hits := hits,
    cache_misses := misses,
    status := "completed" }

/-! ### The breadth-first driver (`analyze_citation_tree`) -/

/-- In-flight traversal state of the level loop of `analyze_citation_tree`. -/
structure LoopState where
  all_citations : List CitationData
  visited : List Nat
  frontier : List Nat
  cache_hits : Nat
  cache_misses : Nat
  cache : List CacheRow
  calls : List Nat
deriving DecidableEq, Repr

/-- `all_citations[citation["opinion_id"]] = citation`: replace in place or
append. -/
def upsertCitation (flat : List CitationData) (c : CitationData) : List CitationData :=
  match flat with
  | [] => [c]
  | x :: xs => if x.opinion_id == c.opinion_id then c :: xs else x :: upsertCitation xs c

/-- Lines 140-142 of `analyze_citation_tree`: truncate an over-large next
frontier to the first `MAX_CITATIONS_PER_LEVEL` ids. -/
def capFrontier (l : List Nat) : List Nat :=
  if MAX_CITATIONS_PER_LEVEL < l.length then l.take MAX_CITATIONS_PER_LEVEL else l

/-- The `for depth in range(start_depth, max_depth + 1)` loop: break on an
empty frontier, otherwise analyze the level, tally cache hits and misses,
fold the level's citations into the flat set, extend the visited set, and
move to the capped next frontier. -/
def run_levels (env : Env) : Nat → Nat → LoopState → LoopState
  | _, 0, s => s
  | depth, remaining + 1, s =>
      if s.frontier.isEmpty then s
      else
        let lr := analyze_level env s.frontier depth s.visited s.cache
        let hits := (lr.citations.filter (fun c => c.from_cache)).length
        let misses := (lr.citations.filter (fun c => !c.from_cache)).length
        run_levels env (depth + 1) remaining
          { all_citations := lr.citations.foldl upsertCitation s.all_citations,
            visited := s.visited ++ lr.next_ids.filter (fun x => decide (x ∉ s.visited)),
            frontier := capFrontier lr.next_ids,
            cache_hits := s.cache_hits + hits,
            cache_misses := s.cache_misses + misses,
            cache := lr.cache,
            calls := s.calls ++ lr.calls }

/-- The combined database state threaded through a request. -/
structure DbState where
  cache : List CacheRow
  trees : List TreeRec
deriving DecidableEq, Repr

/-- Outcome of a traversal: the tree record returned to the caller (its
`to_dict` form), the database after the commit, and the oracle call log. -/
structure AnalyzeOutcome where
  result : TreeRec
  db : DbState
  calls : List Nat
deriving DecidableEq, Repr

/-- Lines 83-97 of `analyze_citation_tree`: pick the record to work on and
the starting depth.  `cached t` is the early return of a complete tree for
the exact requested depth; otherwise `run idx store startDepth` names the
record (by position), the store after a possible insert of a fresh record,
and the first level to analyze. -/
inductive ResumeDecision where
  | cached (t : TreeRec)
  | run (idx : Nat) (store : List TreeRec) (startDepth : Nat)
deriving DecidableEq, Repr

/-- The resume rule of `analyze_citation_tree`: only a live tree for the
exact `(root, max_depth)` pair is ever considered; anything else restarts at
level 1 on a freshly created record (prepended, being the most recent). -/
def resume_decision (store : List TreeRec) (root max_depth : Nat)
    (force_refresh : Bool) : ResumeDecision :=
  match get_existing_tree store root max_depth, force_refresh with
  | some t, false =>
      if treeIsComplete t then .cached t
      else .run (store.findIdx (tree_filter root max_depth)) store (t.current_depth + 1)
  | _, _ => .run 0 (create_tree_record root max_depth :: store) 1

/-- `analyze_citation_tree`: validate the requested depth, decide where to
resume, run the level loop from the root, post-process
(`_re_evaluate_parents`, `_calculate_overall_risk`, `_build_tree_structure`,
`_extract_high_risk_citations`) and commit the updated record. -/
def analyze_citation_tree (env : Env) (db : DbState) (root_opinion_id max_depth : Nat)
    (force_refresh : Bool) : Except String AnalyzeOutcome :=
  if !(1 ≤ max_depth && max_depth ≤ 5) then
    .error "max_depth must be between 1 and 5"
  else
    match resume_decision db.trees root_opinion_id max_depth force_refresh with
    | .cached t => .ok ⟨t, db, []⟩
    | .run idx store start_depth =>
        let s := run_levels env start_depth (max_depth + 1 - start_depth)
          ⟨[], [root_opinion_id], [root_opinion_id], 0, 0, db.cache, []⟩
        let flat := re_evaluate_parents s.all_citations
        let risk := calculate_overall_risk flat
        let td := build_tree_structure root_opinion_id flat
        let hr := extract_high_risk_citations flat
        let t0 := (store.get? idx).getD (create_tree_record root_opinion_id max_depth)
        let t := update_tree_record t0 max_depth flat risk td hr s.cache_hits s.cache_misses
        .ok ⟨t, ⟨s.cache, store.set idx t⟩, s.calls⟩

/-! ### API route (`api/v1/citation_quality.py`, `POST /analyze/{opinion_id}`) -/

/-- An HTTP-level reply of the analyze route. -/
inductive ApiResult where
  | ok (result : TreeRec)
  | httpError (status_code : Nat) (detail : String)
deriving DecidableEq, Repr

/-- The `POST /analyze/{opinion_id}` handler: 404 when the opinion is not in
the database, 503 when the quality analyzer reports itself unavailable
(checked before any traversal), otherwise run the recursive analyzer and
commit its state. -/
def analyze_endpoint (env : Env) (db : DbState) (opinion_id depth : Nat)
    (force_refresh : Bool) : ApiResult × DbState :=
  if !env.inDb opinion_id then
    (.httpError 404 "Opinion not found", db)
  else if !env.available then
    (.httpError 503 "AI analysis unavailable - ANTHROPIC_API_KEY not configured", db)
  else
    match analyze_citation_tree env db opinion_id depth force_refresh with
    | .ok o => (.ok o.result, o.db)
    | .error e => (.httpError 400 e, db)

/-! ### Specification-side definitions (for refinement comparison) -/

/-- The aggregator score exactly as wished by the specification:
`min(100, 0.5·negative_pct·100 + 0.3·questionable_pct·100 +
0.2·depth_weighted_avg)` where `negative_pct = (OVERRULED+SUPERSEDED)/total`,
`questionable_pct = QUESTIONABLE/total`, and the depth-weighted average
weights each node's risk score by `1/max(depth, 1)`. -/
def spec_overall_risk_score (all_citations : List CitationData) : ℚ :=
  let total : ℚ := (all_citations.length : ℚ)
  let negative_pct : ℚ :=
    ((countQA all_citations "OVERRULED" + countQA all_citations "SUPERSEDED" : ℕ) : ℚ) / total
  let questionable_pct : ℚ :=
    ((countQA all_citations "QUESTIONABLE" : ℕ) : ℚ) / total
  let depth_weighted_avg : ℚ :=
    (all_citations.map (fun c => (1 / max (c.depth : ℚ) 1) * c.risk_score)).sum / total
  min 100 ((5/10) * (negative_pct * 100) + (3/10) * (questionable_pct * 100)
    + (2/10) * depth_weighted_avg)

/-! ### Concrete fixtures used by the verification theorems -/

/-- A benign quality verdict used as a constant oracle reply in fixtures. -/
def goodA : Analysis := ⟨"GOOD", 9/10, false, false, false, 10, "ok"⟩

/-- Diamond fixture: opinion 1 cites `[2, 3]`; opinions 2 and 3 both cite 4;
all opinions exist and the oracle always answers. -/
def diamondEnv : Env :=
  ⟨fun i => if i = 1 then [2, 3] else if i = 2 then [4] else if i = 3 then [4] else [],
   fun _ => true, fun _ => true, fun _ => some goodA, true⟩

/-- Cyclic fixture: opinion 1 cites 2 and opinion 2 cites 1 back. -/
def cycleEnv : Env :=
  ⟨fun i => if i = 1 then [2] else if i = 2 then [1] else [],
   fun _ => true, fun _ => true, fun _ => some goodA, true⟩

/-- Leaf fixture: no opinion cites anything. -/
def leafEnv : Env :=
  ⟨fun _ => [], fun _ => true, fun _ => true, fun _ => some goodA, true⟩

/-- Chain fixture: 1 cites 2, 2 cites 3, 3 cites 4, 4 cites 5. -/
def chainEnv : Env :=
  ⟨fun i => if i = 1 then [2] else if i = 2 then [3] else if i = 3 then [4]
    else if i = 4 then [5] else [],
   fun _ => true, fun _ => true, fun _ => some goodA, true⟩

/-- A persisted tree for root 1 completed at depth 2 (only the columns read
by `_get_existing_tree`, `is_complete` and `can_extend_to_depth` matter for
the resume decision). -/
def oldDepth2Tree : TreeRec :=
  { create_tree_record 1 2 with current_depth := 2, status := "completed" }

/-- The verdict cache left behind by the depth-2 run on `chainEnv` (rows for
the nodes of levels 1 and 2). -/
def chainDepth2Cache : List CacheRow :=
  [rowOfAnalysis 2 goodA, rowOfAnalysis 3 goodA]

/-- A single flat-set entry at depth 3 with risk score 1 (spec formula value
`0.2·(1/3) = 1/15`, which has no finite two-decimal representation). -/
def depth3Unit : CitationData :=
  ⟨7, 3, "GOOD", 1, 1, false, false, false, "s", false, none⟩

/-- Fixture for oracle unavailability: a one-edge graph with the analyzer
reporting itself unavailable (no API key). -/
def unavailEnv : Env :=
  ⟨fun i => if i = 1 then [2] else [], fun _ => true, fun _ => true,
   fun _ => some goodA, false⟩

/-- Fixture in which every node of level 1 fails: opinion 1 cites `[2, 3]`
but neither opinion 2 nor 3 can be fetched. -/
def allFailEnv : Env :=
  ⟨fun i => if i = 1 then [2, 3] else [], fun _ => true, fun i => decide (i = 1),
   fun _ => some goodA, true⟩

/-- Fixture in which one node of level 1 fails: opinion 1 cites `[2, 3]`,
opinion 2 cannot be fetched, opinion 3 is fine. -/
def oneFailEnv : Env :=
  ⟨fun i => if i = 1 then [2, 3] else [], fun _ => true, fun i => decide (i ≠ 2),
   fun _ => some goodA, true⟩

/-- 101 cited ids `101..201`, one over the per-level cap. -/
def overCapKids : List Nat := (List.range 101).map (fun i => 101 + i)

/-- Over-cap fixture A: the root cites 101 opinions, none of which cites
anything. -/
def overCapEnvA : Env :=
  ⟨fun i => if i = 1 then overCapKids else [],
   fun _ => true, fun _ => true, fun _ => some goodA, true⟩

/-- Over-cap fixture B: as `overCapEnvA`, except that opinion 201 — the one
id the cap drops from the level-2 frontier — cites opinion 999. -/
def overCapEnvB : Env :=
  ⟨fun i => if i = 1 then overCapKids else if i = 201 then [999] else [],
   fun _ => true, fun _ => true, fun _ => some goodA, true⟩

/-! ## Theorems -/

/-! ### Claim C10: negation suppression -/

/-- Helper: every signal emitted by the keyword-scanning phase starts outside
the claimed negation spans. -/
theorem keywordSignalsFor_position_not_claimed
    (tbl : List (String × ℤ)) (sev : Severity) (s : List Char) (np : List Nat)
    (sig : TreatmentSignal) (hmem : sig ∈ keywordSignalsFor tbl sev s np) :
    sig.position ∉ np := by
  intro hpos
  simp only [keywordSignalsFor, List.mem_flatMap, List.mem_filterMap] at hmem
  obtain ⟨kv, _, i, _, heq⟩ := hmem
  by_cases hin : i ∈ np
  · rw [if_pos hin] at heq
    exact Option.noConfusion heq
  · rw [if_neg hin] at heq
    cases heq
    exact hin hpos

/-- C10: classifying "declined to follow Smith" yields severity NEGATIVE:
the negation pattern claims the span of characters 0-17 ("declined to
follow"), producing the single (negative) signal of the text — in particular
no POSITIVE signal — and in general a keyword match whose start position
falls inside a claimed span is suppressed. -/
theorem declined_to_follow_is_negative :
    (classify_parenthetical "declined to follow Smith").severity = Severity.NEGATIVE ∧
    find_treatment_signals "declined to follow Smith"
      = [⟨"declined to follow".toList, 8, Severity.NEGATIVE, 0⟩] ∧
    negatedPositions (normalize_text "declined to follow Smith") = List.range 18 ∧
    (∀ (s : List Char) (np : List Nat) (tbl : List (String × ℤ)) (sev : Severity)
       (sig : TreatmentSignal), sig ∈ keywordSignalsFor tbl sev s np →
       sig.position ∉ np) := by
  refine ⟨?_, ?_, ?_, ?_⟩
  · with_unfolding_all decide
  · with_unfolding_all decide
  · with_unfolding_all decide
  · exact fun s np tbl sev sig h => keywordSignalsFor_position_not_claimed tbl sev s np sig h

/-- Witness for C10's quantified conjunct: the suppression rule applied to a
concrete scan (keyword "cited" matching at position 0, span list `[5]`). -/
theorem declined_to_follow_is_negative_witness :
    (⟨"cited".toList, 1, Severity.NEUTRAL, 0⟩ : TreatmentSignal).position ∉ [5] :=
  declined_to_follow_is_negative.2.2.2 ("cited x".toList) [5] [("cited", 1)]
    Severity.NEUTRAL ⟨"cited".toList, 1, Severity.NEUTRAL, 0⟩
    (by with_unfolding_all decide)

/-! ### Claim C8: tie-breaking between severity buckets -/

/-- Counterexample to C8: in "rejected and followed" the negative bucket
("rejected", 7) and the positive bucket ("followed", 7) tie for the highest
total, yet `classify_parenthetical` returns NEUTRAL, not NEGATIVE. -/
theorem severity_tie_goes_to_neutral :
    sevScore (find_treatment_signals "rejected and followed") .NEGATIVE = 7 ∧
    sevScore (find_treatment_signals "rejected and followed") .POSITIVE = 7 ∧
    sevScore (find_treatment_signals "rejected and followed") .NEUTRAL = 0 ∧
    (classify_parenthetical "rejected and followed").severity = Severity.NEUTRAL := by
  with_unfolding_all decide

/-- C8 amended: the classifier picks NEGATIVE or POSITIVE only when the
bucket total is strictly greater than both other totals; every tie falls
through to NEUTRAL. -/
theorem severity_selection_strict (text : String)
    (h : find_treatment_signals text ≠ []) :
    (classify_parenthetical text).severity =
      (if sevScore (find_treatment_signals text) .NEGATIVE
            > sevScore (find_treatment_signals text) .POSITIVE
          ∧ sevScore (find_treatment_signals text) .NEGATIVE
            > sevScore (find_treatment_signals text) .NEUTRAL
       then Severity.NEGATIVE
       else if sevScore (find_treatment_signals text) .POSITIVE
            > sevScore (find_treatment_signals text) .NEGATIVE
          ∧ sevScore (find_treatment_signals text) .POSITIVE
            > sevScore (find_treatment_signals text) .NEUTRAL
       then Severity.POSITIVE
       else Severity.NEUTRAL) := by
  unfold classify_parenthetical
  cases hs : find_treatment_signals text with
  | nil => exact absurd hs h
  | cons s0 rest =>
      dsimp only
      split_ifs <;> rfl

/-- Witness for C8's amended rule at the concrete text "overruled": the
negative bucket strictly dominates, and the rule yields its severity. -/
theorem severity_selection_strict_witness :
    (classify_parenthetical "overruled").severity =
      (if sevScore (find_treatment_signals "overruled") .NEGATIVE
            > sevScore (find_treatment_signals "overruled") .POSITIVE
          ∧ sevScore (find_treatment_signals "overruled") .NEGATIVE
            > sevScore (find_treatment_signals "overruled") .NEUTRAL
       then Severity.NEGATIVE
       else if sevScore (find_treatment_signals "overruled") .POSITIVE
            > sevScore (find_treatment_signals "overruled") .NEGATIVE
          ∧ sevScore (find_treatment_signals "overruled") .POSITIVE
            > sevScore (find_treatment_signals "overruled") .NEUTRAL
       then Severity.POSITIVE
       else Severity.NEUTRAL) :=
  severity_selection_strict "overruled" (by with_unfolding_all decide)

/-! ### Claim C7: the aggregator formula -/

/-- Counterexample to C7: the emitted overall score is the formula value
rounded to two decimals, so on `[depth3Unit]` the aggregator returns `0.07`
while the claimed formula yields `1/15`. -/
theorem aggregator_score_is_rounded :
    (calculate_overall_risk [depth3Unit]).score = 7/100 ∧
    spec_overall_risk_score [depth3Unit] = 1/15 ∧
    (calculate_overall_risk [depth3Unit]).score ≠ spec_overall_risk_score [depth3Unit] := by
  with_unfolding_all decide

/-- C7 amended: for every non-empty flat citation set the emitted score is
the specification formula rounded half-to-even at two decimals, the level is
determined by the unrounded formula value (`≥70` HIGH, `≥40` MEDIUM, LOW
otherwise), and the aggregator is a pure function (second run identical). -/
theorem aggregator_amended (cits : List CitationData) (h : cits ≠ []) :
    (calculate_overall_risk cits).score = pyRound2 (spec_overall_risk_score cits) ∧
    (calculate_overall_risk cits).level =
      (if 70 ≤ spec_overall_risk_score cits then "HIGH"
       else if 40 ≤ spec_overall_risk_score cits then "MEDIUM" else "LOW") ∧
    calculate_overall_risk cits = calculate_overall_risk cits := by
  match cits, h with
  | c :: l, _ =>
    have key :
        min ((((countQA (c :: l) "OVERRULED" + countQA (c :: l) "SUPERSEDED" : ℕ) : ℚ)
                / (((c :: l).length : ℕ) : ℚ) * 100) * (5/10)
             + (((countQA (c :: l) "QUESTIONABLE" : ℕ) : ℚ)
                / (((c :: l).length : ℕ) : ℚ) * 100) * (3/10)
             + ((c :: l).map (fun x => (1 / max (x.depth : ℚ) 1) * x.risk_score)).sum
                / (((c :: l).length : ℕ) : ℚ) * (2/10))
            100
          = spec_overall_risk_score (c :: l) := by
      unfold spec_overall_risk_score
      rw [min_comm]
      congr 1
      push_cast
      ring
    refine ⟨?_, ?_, rfl⟩
    · show pyRound2 _ = pyRound2 _
      rw [key]
    · show (if (70:ℚ) ≤ _ then "HIGH" else if (40:ℚ) ≤ _ then "MEDIUM" else "LOW") = _
      rw [key]

/-- Witness for C7's amended statement on a concrete one-element set. -/
theorem aggregator_amended_witness :
    (calculate_overall_risk [depth3Unit]).score
        = pyRound2 (spec_overall_risk_score [depth3Unit]) ∧
    (calculate_overall_risk [depth3Unit]).level =
      (if 70 ≤ spec_overall_risk_score [depth3Unit] then "HIGH"
       else if 40 ≤ spec_overall_risk_score [depth3Unit] then "MEDIUM" else "LOW") ∧
    calculate_overall_risk [depth3Unit] = calculate_overall_risk [depth3Unit] :=
  aggregator_amended [depth3Unit] (by with_unfolding_all decide)

/-! ### Claim C2: at-most-one oracle call per cached key -/

/-- Helper: a lookup right after a save returns exactly the saved verdict. -/
theorem get_cached_after_save (cache : List CacheRow) (opinion_id : Nat) (a : Analysis) :
    get_cached_analysis (save_analysis cache opinion_id a) opinion_id
      = some (rowOfAnalysis opinion_id a) := by
  induction cache with
  | nil =>
      simp [save_analysis, get_cached_analysis, rowOfAnalysis]
  | cons r rs ih =>
      by_cases hkey : (r.cited_opinion_id == opinion_id && r.analysis_version == 1) = true
      · have h' := hkey
        simp only [Bool.and_eq_true, beq_iff_eq] at h'
        obtain ⟨hid, hver⟩ := h'
        simp [save_analysis, hkey, get_cached_analysis, rowOfAnalysis, hid, hver]
      · simp only [save_analysis, hkey, Bool.false_eq_true, if_false]
        simpa [get_cached_analysis, List.find?_cons, hkey] using ih

/-- Helper: saving over an existing key rewrites the row in place, leaving
the number of rows unchanged. -/
theorem save_over_cached_length (cache : List CacheRow) (opinion_id : Nat) (a : Analysis)
    (h : (get_cached_analysis cache opinion_id).isSome = true) :
    (save_analysis cache opinion_id a).length = cache.length := by
  induction cache with
  | nil => simp [get_cached_analysis] at h
  | cons r rs ih =>
      by_cases hkey : (r.cited_opinion_id == opinion_id && r.analysis_version == 1) = true
      · simp [save_analysis, hkey]
      · have h' : (get_cached_analysis rs opinion_id).isSome = true := by
          simpa [get_cached_analysis, List.find?_cons, hkey] using h
        simp [save_analysis, hkey, ih h']

/-- Helper: assessing a node whose verdict is cached performs no oracle call
and leaves the cache unchanged. -/
theorem assess_cited_hit (env : Env) (cache : List CacheRow) (cited_id depth : Nat)
    (h : (get_cached_analysis cache cited_id).isSome = true) :
    (assess_cited env cache cited_id depth).2.2 = [] ∧
    (assess_cited env cache cited_id depth).2.1 = cache := by
  obtain ⟨r, hr⟩ := Option.isSome_iff_exists.mp h
  cases hex : env.opinionExists cited_id <;>
    simp [assess_cited, hex, hr]

/-- C2: the cache guarantees at-most-one oracle invocation per key — a
lookup after a save is a hit returning the saved verdict, a save over an
existing key updates in place (no duplicate row), a cached node is assessed
without any oracle call, and on a cache miss (opinion present, analyzer
available, oracle answering) exactly one oracle call happens, its result is
persisted, and re-assessing the same node immediately afterwards performs no
further oracle call. -/
theorem cache_at_most_one_oracle_call (env : Env) (cache : List CacheRow)
    (opinion_id depth : Nat) (a : Analysis) :
    (get_cached_analysis (save_analysis cache opinion_id a) opinion_id
        = some (rowOfAnalysis opinion_id a)) ∧
    ((get_cached_analysis cache opinion_id).isSome = true →
      (save_analysis cache opinion_id a).length = cache.length) ∧
    ((get_cached_analysis cache opinion_id).isSome = true →
      (assess_cited env cache opinion_id depth).2.2 = []) ∧
    (env.opinionExists opinion_id = true → env.available = true →
      get_cached_analysis cache opinion_id = none →
      env.oracle opinion_id = some a →
      (assess_cited env cache opinion_id depth).2.2 = [opinion_id] ∧
      (assess_cited env cache opinion_id depth).2.1 = save_analysis cache opinion_id a ∧
      (assess_cited env
          (assess_cited env cache opinion_id depth).2.1 opinion_id depth).2.2 = []) := by
  refine ⟨get_cached_after_save cache opinion_id a,
          save_over_cached_length cache opinion_id a,
          fun h => (assess_cited_hit env cache opinion_id depth h).1,
          fun hex hav hmiss hora => ?_⟩
  have hstep : assess_cited env cache opinion_id depth
      = (some ⟨opinion_id, depth, a.quality_assessment, a.confidence, a.risk_score,
               a.is_overruled, a.is_questioned, a.is_criticized, a.summary, false, none⟩,
         save_analysis cache opinion_id a, [opinion_id]) := by
    simp [assess_cited, hex, hmiss, analyze_citation_quality, hav, hora]
  refine ⟨by rw [hstep], by rw [hstep], ?_⟩
  rw [hstep]
  exact (assess_cited_hit env (save_analysis cache opinion_id a) opinion_id depth
    (by rw [get_cached_after_save]; rfl)).1

/-- Witness for C2 on a concrete cache, environment and verdict. -/
theorem cache_at_most_one_oracle_call_witness :
    ((get_cached_analysis (save_analysis [] 9 goodA) 9 = some (rowOfAnalysis 9 goodA)) ∧ True) ∧
    (assess_cited leafEnv [] 9 1).2.2 = [9] := by
  have h := cache_at_most_one_oracle_call leafEnv [] 9 1 goodA
  refine ⟨⟨h.1, trivial⟩, ?_⟩
  exact (h.2.2.2 (by with_unfolding_all decide) (by with_unfolding_all decide)
    (by with_unfolding_all decide) (by with_unfolding_all decide)).1

/-! ### Claim C5: oracle unavailability is rejected before traversal -/

/-- C5: when the quality analyzer reports itself unavailable, the analyze
route answers 503 ("service unavailable") for any opinion that exists, and
the database — verdict cache and tree store alike — is left untouched, so in
particular no tree is persisted as completed. -/
theorem oracle_unavailable_rejected (env : Env) (db : DbState)
    (opinion_id depth : Nat) (force : Bool) (h : env.available = false) :
    (env.inDb opinion_id = true →
      (analyze_endpoint env db opinion_id depth force).1
        = .httpError 503 "AI analysis unavailable - ANTHROPIC_API_KEY not configured") ∧
    (analyze_endpoint env db opinion_id depth force).2 = db := by
  unfold analyze_endpoint
  cases hdb : env.inDb opinion_id <;> simp [h, hdb]

/-- Witness for C5 on the concrete unavailable fixture. -/
theorem oracle_unavailable_rejected_witness :
    (analyze_endpoint unavailEnv ⟨[], []⟩ 1 3 false).1
      = .httpError 503 "AI analysis unavailable - ANTHROPIC_API_KEY not configured" ∧
    (analyze_endpoint unavailEnv ⟨[], []⟩ 1 3 false).2 = ⟨[], []⟩ :=
  have h := oracle_unavailable_rejected unavailEnv ⟨[], []⟩ 1 3 false rfl
  ⟨h.1 rfl, h.2⟩

/-! ### Shared helper lemmas about the traversal -/

/-- Helper: a successful `assess_cited` returns data for the requested id,
and only for an opinion that could be fetched. -/
theorem assess_cited_some_shape (env : Env) (cache : List CacheRow)
    (cited_id depth : Nat) (cd : CitationData)
    (h : (assess_cited env cache cited_id depth).1 = some cd) :
    cd.opinion_id = cited_id ∧ env.opinionExists cited_id = true := by
  unfold assess_cited at h
  cases hex : env.opinionExists cited_id with
  | false => rw [hex] at h; simp at h
  | true =>
      rw [hex] at h
      simp only [Bool.not_true, Bool.false_eq_true, if_false] at h
      refine ⟨?_, rfl⟩
      cases hget : get_cached_analysis cache cited_id with
      | some r => rw [hget] at h; cases h; rfl
      | none =>
          rw [hget] at h
          cases hav : env.available with
          | false => simp [hav] at h
          | true =>
              simp only [hav, Bool.not_true, Bool.false_eq_true, if_false] at h
              cases hora : analyze_citation_quality env cited_id with
              | none => rw [hora] at h; simp at h
              | some a => rw [hora] at h; cases h; rfl

/-- Helper: a property preserved by the loop step holds of all citations
accumulated by a fold of level results. -/
theorem foldl_level_inv {α : Type} (P : CitationData → Prop)
    (step : LevelResult → α → LevelResult)
    (hstep : ∀ acc x, (∀ cd ∈ acc.citations, P cd) → ∀ cd ∈ (step acc x).citations, P cd) :
    ∀ (l : List α) (acc : LevelResult), (∀ cd ∈ acc.citations, P cd) →
      ∀ cd ∈ (l.foldl step acc).citations, P cd := by
  intro l
  induction l with
  | nil => intro acc h; exact h
  | cons x xs ih => intro acc h; exact ih _ (hstep acc x h)

/-- Helper: `process_cited` only appends citations for ids that are not in
the visited set and whose opinions exist. -/
theorem process_cited_inv (env : Env) (depth : Nat) (visited : List Nat)
    (acc : LevelResult) (c : Nat)
    (h : ∀ cd ∈ acc.citations, cd.opinion_id ∉ visited ∧ env.opinionExists cd.opinion_id = true) :
    ∀ cd ∈ (process_cited env depth visited acc c).citations,
      cd.opinion_id ∉ visited ∧ env.opinionExists cd.opinion_id = true := by
  intro cd hcd
  unfold process_cited at hcd
  by_cases hv : c ∈ visited
  · rw [if_pos hv] at hcd; exact h cd hcd
  · rw [if_neg hv] at hcd
    rcases hr : assess_cited env acc.cache c depth with ⟨r1, cache', calls'⟩
    rw [hr] at hcd
    cases r1 with
    | none => exact h cd hcd
    | some cd' =>
        simp only [List.mem_append, List.mem_singleton] at hcd
        rcases hcd with hcd | hcd
        · exact h cd hcd
        · subst hcd
          obtain ⟨hid, hex⟩ := assess_cited_some_shape env acc.cache c depth cd
            (by rw [hr])
          rw [hid]
          exact ⟨hv, hex⟩

/-- Helper: every citation produced by `_analyze_level` belongs to an id
outside the visited set whose opinion was successfully fetched. -/
theorem analyze_level_citations_sound (env : Env) (ids : List Nat) (depth : Nat)
    (visited : List Nat) (cache : List CacheRow) :
    ∀ cd ∈ (analyze_level env ids depth visited cache).citations,
      cd.opinion_id ∉ visited ∧ env.opinionExists cd.opinion_id = true := by
  unfold analyze_level
  refine foldl_level_inv _ (process_parent env depth visited) ?_ ids _ (by intro cd h; cases h)
  intro acc x hacc
  unfold process_parent
  exact foldl_level_inv _ (process_cited env depth visited)
    (fun acc' x' h' => process_cited_inv env depth visited acc' x' h')
    (env.citations x) acc hacc

/-- Helper: pushing a projection through an option map. -/
theorem option_map_proj {α β γ : Type} (x : Option α) (f : α → β) (g : β → γ) (v : β)
    (h : x.map f = some v) : x.map (fun o => g (f o)) = some (g v) := by
  cases x with
  | none => simp at h
  | some a =>
      simp only [Option.map] at h ⊢
      rw [Option.some.inj h]

/-- Helper: a fresh run (empty tree store) always commits a record at the
requested depth with status completed and no error message. -/
theorem fresh_run_record_fields (env : Env) (cache : List CacheRow)
    (root maxd : Nat) (force : Bool) (h1 : 1 ≤ maxd) (h2 : maxd ≤ 5) :
    (analyze_citation_tree env ⟨cache, []⟩ root maxd force).toOption.map
      (fun o => (o.result.current_depth, o.result.status, o.result.error_message))
      = some (maxd, "completed", none) := by
  have hc : (decide (1 ≤ maxd) && decide (maxd ≤ 5)) = true := by
    simp [h1, h2]
  unfold analyze_citation_tree
  simp only [hc, Bool.not_true, Bool.false_eq_true, if_false]
  rfl

/-! ### Claim C3: early stop vs. persisted depth -/

/-- Counterexample to C3: opinion 1 cites nothing, so at the requested depth
3 the traversal finds no citations at all — yet the persisted record carries
`current_depth = 3` (the requested depth), not the last non-empty level. -/
theorem persisted_depth_is_requested_depth :
    (analyze_citation_tree leafEnv ⟨[], []⟩ 1 3 false).toOption.map
      (fun o => (o.result.current_depth, o.result.total_citations_analyzed, o.result.status))
      = some (3, 0, "completed") := by
  with_unfolding_all decide

/-- C3 amended: the level loop does stop expanding as soon as a level's
frontier is empty (no padding to `maxDepth`), but the committed record's
`current_depth` is always the requested `max_depth`. -/
theorem early_stop_but_depth_recorded_as_max (env : Env) (cache : List CacheRow)
    (root maxd : Nat) (force : Bool) (depth rem : Nat) (s : LoopState)
    (h1 : 1 ≤ maxd) (h2 : maxd ≤ 5) (hempty : s.frontier = []) :
    run_levels env depth (rem + 1) s = s ∧
    (analyze_citation_tree env ⟨cache, []⟩ root maxd force).toOption.map
      (fun o => o.result.current_depth) = some maxd := by
  constructor
  · unfold run_levels
    rw [hempty]
    rfl
  · exact option_map_proj _ _ Prod.fst _
      (fresh_run_record_fields env cache root maxd force h1 h2)

/-- Witness for C3's amended statement at concrete inputs. -/
theorem early_stop_but_depth_recorded_as_max_witness :
    run_levels leafEnv 2 (0 + 1) ⟨[], [1], [], 0, 0, [], []⟩ = ⟨[], [1], [], 0, 0, [], []⟩ ∧
    (analyze_citation_tree leafEnv ⟨[], []⟩ 1 3 false).toOption.map
      (fun o => o.result.current_depth) = some 3 :=
  early_stop_but_depth_recorded_as_max leafEnv [] 1 3 false 2 0
    ⟨[], [1], [], 0, 0, [], []⟩ (by decide) (by decide) rfl

/-! ### Claim C6: per-node failures never fail the tree -/

/-- Counterexample to C6: every node of level 1 fails (neither cited opinion
can be fetched, a 100% failure rate), yet the traversal is not marked
`failed`: the record is committed as completed with no error message. -/
theorem whole_level_failure_still_completed :
    (analyze_citation_tree allFailEnv ⟨[], []⟩ 1 2 false).toOption.map
      (fun o => (o.result.status, o.result.error_message, o.result.total_citations_analyzed))
      = some ("completed", none, 0) := by
  with_unfolding_all decide

/-- C6 amended: a failing node is only skipped — no citation is ever
recorded for an opinion that could not be fetched, and a sibling of a failed
node is still analyzed — and there is no failure-fraction threshold at all:
whatever the environment does, a fresh traversal always commits its record
with status completed and a null error message. -/
theorem node_failure_skips_node_only (env : Env) (ids : List Nat) (depth : Nat)
    (visited : List Nat) (cache : List CacheRow) (root maxd : Nat) (force : Bool)
    (h1 : 1 ≤ maxd) (h2 : maxd ≤ 5) :
    (∀ cd ∈ (analyze_level env ids depth visited cache).citations,
        env.opinionExists cd.opinion_id = true) ∧
    ((analyze_citation_tree oneFailEnv ⟨[], []⟩ 1 1 false).toOption.map
      (fun o => (o.result.total_citations_analyzed, o.result.status,
        (o.result.tree_data).map
          (fun td => td.citations_by_depth.map (fun p => (p.1, p.2.map (·.opinion_id))))))
      = some (1, "completed", some [(1, [3])])) ∧
    (analyze_citation_tree env ⟨cache, []⟩ root maxd force).toOption.map
      (fun o => (o.result.status, o.result.error_message))
      = some ("completed", none) := by
  refine ⟨?_, by with_unfolding_all decide, ?_⟩
  · intro cd hcd
    exact (analyze_level_citations_sound env ids depth visited cache cd hcd).2
  · exact option_map_proj _ _ Prod.snd _
      (fresh_run_record_fields env cache root maxd force h1 h2)

/-- Witness for C6's amended statement at concrete inputs. -/
theorem node_failure_skips_node_only_witness :
    oneFailEnv.opinionExists 3 = true ∧
    (analyze_citation_tree oneFailEnv ⟨[], []⟩ 1 1 false).toOption.map
      (fun o => (o.result.status, o.result.error_message)) = some ("completed", none) :=
  have h := node_failure_skips_node_only oneFailEnv [1] 1 [1] [] 1 1 false
    (by decide) (by decide)
  ⟨h.1 ⟨3, 1, "GOOD", 9/10, 10, false, false, false, "ok", false, none⟩
    (by with_unfolding_all decide), h.2.2⟩

/-! ### Claim C4: visit-once semantics on cycles and diamonds -/

/-- Counterexample to C4: in the diamond (1 cites [2,3]; 2 and 3 both cite
4; depth 2) opinion 4 is processed twice within level 2 — once per parent,
the second time served from the cache — because the visited set is only
updated between levels.  The full run shows one cache hit despite starting
from an empty verdict cache. -/
theorem diamond_node_processed_twice_in_level :
    ((analyze_level diamondEnv [2, 3] 2 [1, 2, 3]
        (analyze_level diamondEnv [1] 1 [1] []).cache).citations.map
      (fun c => (c.opinion_id, c.from_cache))) = [(4, false), (4, true)] ∧
    (analyze_citation_tree diamondEnv ⟨[], []⟩ 1 2 false).toOption.map
      (fun o => (o.result.cache_hits, o.result.cache_misses)) = some (1, 3) := by
  with_unfolding_all decide

/-- C4 amended: an id in the visited set (the root and every id discovered
at an earlier level) is never assessed again; an id re-cited by a second
parent within the same level is processed once per parent, but the repeat is
a cache hit — the oracle is still called exactly once per id — and the flat
citation set records the id exactly once.  On the cyclic graph 1⇄2 the
traversal terminates with node 2 assessed once and node 1 never re-entered. -/
theorem visited_never_reassessed (env : Env) (ids : List Nat) (depth : Nat)
    (visited : List Nat) (cache : List CacheRow) :
    (∀ cd ∈ (analyze_level env ids depth visited cache).citations,
        cd.opinion_id ∉ visited) ∧
    ((analyze_citation_tree diamondEnv ⟨[], []⟩ 1 2 false).toOption.map
      (fun o => (o.result.total_citations_analyzed, o.calls,
        (o.result.tree_data).map
          (fun td => td.citations_by_depth.map (fun p => (p.1, p.2.map (·.opinion_id))))))
      = some (3, [2, 3, 4], some [(1, [2, 3]), (2, [4])])) ∧
    ((analyze_citation_tree cycleEnv ⟨[], []⟩ 1 3 false).toOption.map
      (fun o => (o.result.total_citations_analyzed, o.calls)) = some (1, [2])) := by
  refine ⟨?_, by with_unfolding_all decide, by with_unfolding_all decide⟩
  intro cd hcd
  exact (analyze_level_citations_sound env ids depth visited cache cd hcd).1

/-- Witness for C4's quantified conjunct at the diamond's second level. -/
theorem visited_never_reassessed_witness : (4 : Nat) ∉ [1, 2, 3] :=
  (visited_never_reassessed diamondEnv [2, 3] 2 [1, 2, 3] []).1
    ⟨4, 2, "GOOD", 9/10, 10, false, false, false, "ok", false, none⟩
    (by with_unfolding_all decide)

/-! ### Claim C1: extension of a tree completed at a smaller depth -/

/-- C1: a tree for root 1 completed at depth 2 satisfies
`can_extend_to_depth 4` — the model's own extension predicate, and the
`CitationAnalysisTree` docstring promises continuation from level 3 — yet
`_get_existing_tree` only matches the exact requested `max_depth`, so the
depth-4 request finds nothing, restarts at level 1 on a freshly created
record, and re-walks levels 1-2 (two cache lookups for the already-analyzed
chain nodes 2 and 3) instead of resuming at level 3. -/
theorem completed_smaller_tree_restarts_at_level_one :
    can_extend_to_depth oldDepth2Tree 4 = true ∧
    get_existing_tree [oldDepth2Tree] 1 4 = none ∧
    resume_decision [oldDepth2Tree] 1 4 false
      = .run 0 [create_tree_record 1 4, oldDepth2Tree] 1 ∧
    (analyze_citation_tree chainEnv ⟨chainDepth2Cache, [oldDepth2Tree]⟩ 1 4 false).toOption.map
      (fun o => (o.calls, o.result.cache_hits, o.result.cache_misses, o.db.trees.length))
      = some ([4, 5], 2, 2, 2) := by
  with_unfolding_all decide

/-! ### Claim C9: the per-level cap -/

set_option maxRecDepth 100000 in
/-- Counterexample to C9: with 101 opinions discovered at level 1, the
level-2 frontier is truncated and opinion 201 is never expanded — but
nothing in the persisted record says so: the record of the truncated run on
`overCapEnvB` (where 201 cites 999) is identical to the record produced on
`overCapEnvA` (where 201 cites nothing), so a caller cannot detect the
incompleteness. -/
theorem truncation_not_recorded :
    (analyze_citation_tree overCapEnvB ⟨[], []⟩ 1 2 false).toOption.map (·.result)
      = (analyze_citation_tree overCapEnvA ⟨[], []⟩ 1 2 false).toOption.map (·.result) ∧
    overCapEnvB.citations 201 = [999] ∧
    (analyze_citation_tree overCapEnvB ⟨[], []⟩ 1 2 false).toOption.map
      (fun o => o.result.total_citations_analyzed) = some 101 := by
  with_unfolding_all decide

/-- C9 amended: whenever a level's frontier exceeds
`MAX_CITATIONS_PER_LEVEL`, exactly the first `MAX_CITATIONS_PER_LEVEL` ids
in the frontier's discovery order are retained for expansion (a
deterministic function of the graph-store output in this embedding), but the
truncation is not recorded in the persisted tree record. -/
theorem frontier_cap_takes_first (l : List Nat)
    (h : MAX_CITATIONS_PER_LEVEL < l.length) :
    capFrontier l = l.take MAX_CITATIONS_PER_LEVEL ∧
    (capFrontier l).length = MAX_CITATIONS_PER_LEVEL := by
  have he : capFrontier l = l.take MAX_CITATIONS_PER_LEVEL := by
    unfold capFrontier
    rw [if_pos (by exact_mod_cast h)]
  refine ⟨he, ?_⟩
  rw [he, List.length_take]
  exact Nat.min_eq_left (Nat.le_of_lt h)

/-- Witness for C9's amended statement on the concrete 101-id frontier. -/
theorem frontier_cap_takes_first_witness :
    capFrontier overCapKids = overCapKids.take MAX_CITATIONS_PER_LEVEL ∧
    (capFrontier overCapKids).length = MAX_CITATIONS_PER_LEVEL :=
  frontier_cap_takes_first overCapKids (by with_unfolding_all decide)

end CourtListener
